import Mathlib

/-!
Verification development for the content-curation data-modeling layer
(`contentcuration/models.py`): the content-addressed file store
(`file_on_disk_name`, `FileOnDiskStorage._save`, `File.save`,
`auto_delete_file_on_delete`) and the relationship integrity guard
(`PrerequisiteContentRelationship`, `RelatedContentRelationship`,
`ContentNode.delete`).

Byte blobs are `List Nat` (each element one byte), stores are association
lists from path strings to blob bytes, and fallible Python code is embedded
as `Except String`.
-/

set_option maxRecDepth 100000

deriving instance DecidableEq for Except

namespace Studio

/-! ## Bytes, hex digests and MD5 (`hashlib.md5`) -/

/-- Bytes of an ASCII string (the embedding of a Python byte string whose
characters are all ASCII). -/
def strBytes (s : String) : List Nat := s.data.map Char.toNat

/-- The sixteen lowercase hex digit characters, in value order. -/
def hexDigits : List Char := "0123456789abcdef".data

/-- Hex digit character of `n % 16`. -/
def hexChar (n : Nat) : Char := hexDigits.getD (n % 16) '0'

/-- Two hex characters of one byte (high nibble first). -/
def hexPair (b : Nat) : List Char := [hexChar (b / 16), hexChar (b % 16)]

/-- Lowercase hex rendering of a byte list, as in `hexdigest()`. -/
def hexOfBytes (bs : List Nat) : List Char := bs.flatMap hexPair

/-- `k` little-endian bytes of `n`. -/
def toLE : Nat → Nat → List Nat
  | 0, _ => []
  | k + 1, n => n % 256 :: toLE k (n / 256)

/-- MD5 per-round constants `K[i] = floor(2^32 * |sin(i+1)|)` (RFC 1321). -/
def md5K : List Nat :=
  [0xd76aa478, 0xe8c7b756, 0x242070db, 0xc1bdceee,
   0xf57c0faf, 0x4787c62a, 0xa8304613, 0xfd469501,
   0x698098d8, 0x8b44f7af, 0xffff5bb1, 0x895cd7be,
   0x6b901122, 0xfd987193, 0xa679438e, 0x49b40821,
   0xf61e2562, 0xc040b340, 0x265e5a51, 0xe9b6c7aa,
   0xd62f105d, 0x02441453, 0xd8a1e681, 0xe7d3fbc8,
   0x21e1cde6, 0xc33707d6, 0xf4d50d87, 0x455a14ed,
   0xa9e3e905, 0xfcefa3f8, 0x676f02d9, 0x8d2a4c8a,
   0xfffa3942, 0x8771f681, 0x6d9d6122, 0xfde5380c,
   0xa4beea44, 0x4bdecfa9, 0xf6bb4b60, 0xbebfbc70,
   0x289b7ec6, 0xeaa127fa, 0xd4ef3085, 0x04881d05,
   0xd9d4d039, 0xe6db99e5, 0x1fa27cf8, 0xc4ac5665,
   0xf4292244, 0x432aff97, 0xab9423a7, 0xfc93a039,
   0x655b59c3, 0x8f0ccc92, 0xffeff47d, 0x85845dd1,
   0x6fa87e4f, 0xfe2ce6e0, 0xa3014314, 0x4e0811a1,
   0xf7537e82, 0xbd3af235, 0x2ad7d2bb, 0xeb86d391]

/-- MD5 per-round left-rotation amounts (RFC 1321). -/
def md5S : List Nat :=
  [7, 12, 17, 22, 7, 12, 17, 22, 7, 12, 17, 22, 7, 12, 17, 22,
   5, 9, 14, 20, 5, 9, 14, 20, 5, 9, 14, 20, 5, 9, 14, 20,
   4, 11, 16, 23, 4, 11, 16, 23, 4, 11, 16, 23, 4, 11, 16, 23,
   6, 10, 15, 21, 6, 10, 15, 21, 6, 10, 15, 21, 6, 10, 15, 21]

/-- 32-bit truncation. -/
def w32 (n : Nat) : Nat := n % 4294967296

/-- 32-bit bitwise complement (for inputs below `2^32`). -/
def wnot (n : Nat) : Nat := Nat.xor n 4294967295

/-- 32-bit left rotation by `c` (for `c ≤ 32`). -/
def rotl (x c : Nat) : Nat :=
  Nat.lor (w32 (Nat.shiftLeft x c)) (Nat.shiftRight x (32 - c))

/-- The round-dependent nonlinear function of MD5. -/
def md5F (i b c d : Nat) : Nat :=
  if i < 16 then Nat.lor (Nat.land b c) (Nat.land (wnot b) d)
  else if i < 32 then Nat.lor (Nat.land d b) (Nat.land (wnot d) c)
  else if i < 48 then Nat.xor b (Nat.xor c d)
  else Nat.xor c (Nat.lor b (wnot d))

/-- The round-dependent message-word index of MD5. -/
def md5G (i : Nat) : Nat :=
  if i < 16 then i
  else if i < 32 then (5 * i + 1) % 16
  else if i < 48 then (3 * i + 5) % 16
  else (7 * i) % 16

/-- One of the 64 MD5 rounds on state `(a, b, c, d)`. -/
def md5Round (m : List Nat) (st : Nat × Nat × Nat × Nat) (i : Nat) :
    Nat × Nat × Nat × Nat :=
  let a := st.1
  let b := st.2.1
  let c := st.2.2.1
  let d := st.2.2.2
  let f := w32 (md5F i b c d + a + md5K.getD i 0 + m.getD (md5G i) 0)
  (d, w32 (b + rotl f (md5S.getD i 0)), b, c)

/-- Compression of one 16-word block into the running state. -/
def md5Block (st : Nat × Nat × Nat × Nat) (m : List Nat) :
    Nat × Nat × Nat × Nat :=
  let r := (List.range 64).foldl (md5Round m) st
  (w32 (st.1 + r.1), w32 (st.2.1 + r.2.1), w32 (st.2.2.1 + r.2.2.1),
   w32 (st.2.2.2 + r.2.2.2))

/-- MD5 padding: `0x80`, zeros to 56 mod 64, then the 8-byte little-endian
bit length. -/
def md5Pad (msg : List Nat) : List Nat :=
  msg ++ 128 :: List.replicate ((119 - msg.length % 64) % 64) 0
      ++ toLE 8 (msg.length * 8)

/-- Split a byte list into its 64-byte blocks. -/
def chunks64 (l : List Nat) : List (List Nat) :=
  (List.range (l.length / 64)).map (fun i => (l.drop (64 * i)).take 64)

/-- Decode a 64-byte block as 16 little-endian 32-bit words. -/
def toWords (blk : List Nat) : List Nat :=
  (List.range 16).map (fun j =>
    blk.getD (4 * j) 0 + 256 * blk.getD (4 * j + 1) 0
      + 65536 * blk.getD (4 * j + 2) 0 + 16777216 * blk.getD (4 * j + 3) 0)

/-- The 16-byte MD5 digest of a byte list. -/
def md5Digest (msg : List Nat) : List Nat :=
  let st := (chunks64 (md5Pad msg)).foldl
    (fun s blk => md5Block s (toWords blk))
    (0x67452301, 0xefcdab89, 0x98badcfe, 0x10325476)
  toLE 4 st.1 ++ toLE 4 st.2.1 ++ toLE 4 st.2.2.1 ++ toLE 4 st.2.2.2

/-- `hashlib.md5(bytes).hexdigest()`: the 32-character lowercase hex digest. -/
def md5hex (msg : List Nat) : String := ⟨hexOfBytes (md5Digest msg)⟩

/-! ## String and path helpers (`str.lower`, `os.path.splitext`, `os.path.join`) -/

/-- `str.lower()` (restricted to the ASCII case mapping used by the
extensions at issue). -/
def strLower (s : String) : String := ⟨s.data.map Char.toLower⟩

/-- The one-character string holding the first character (`s[0:1]`, and also
`s[0]` once the index is known to exist). -/
def strHead1 (s : String) : String := ⟨s.data.take 1⟩

/-- The one-character string holding the second character (`s[1:2]`, and also
`s[1]` once the index is known to exist). -/
def strSecond1 (s : String) : String := ⟨(s.data.drop 1).take 1⟩

/-- Index of the last occurrence of `c` in `l` (`str.rfind`, `none` for -1). -/
def lastIdxOf (l : List Char) (c : Char) : Option Nat :=
  ((l.enum.filter (fun p => p.2 == c)).map (fun p => p.1)).getLast?

/-- `os.path.splitext` (posixpath): split off the extension at the last dot,
provided the dot lies after the last `/` and some earlier character of the
basename is not itself a dot. -/
def splitext (p : String) : String × String :=
  let l := p.data
  let sepI := match lastIdxOf l '/' with
    | none => 0
    | some k => k + 1
  match lastIdxOf l '.' with
  | some d =>
    if sepI ≤ d then
      if ((List.range (d - sepI)).map (fun j => sepI + j)).any
          (fun k => l.getD k '.' != '.') then
        (⟨l.take d⟩, ⟨l.drop d⟩)
      else (p, "")
    else (p, "")
  | none => (p, "")

/-- One step of `os.path.join` (posixpath, separator `/`). -/
def ospathJoin1 (path b : String) : String :=
  if b.data.headD ' ' = '/' then b
  else if path.data = [] ∨ path.data.getLast? = some '/' then ⟨path.data ++ b.data⟩
  else ⟨path.data ++ '/' :: b.data⟩

/-- `os.path.join` over a list of further components. -/
def ospathJoin (a : String) (ps : List String) : String := ps.foldl ospathJoin1 a

/-! ## The content-addressed file store -/

/-- `file_on_disk_name(instance, filename)`: the namespaced storage path
`h[0]/h[1]/h + ext.lower()` built from the instance's checksum `h`;
indexing an empty or one-character checksum raises `IndexError`. -/
def file_on_disk_name (checksum filename : String) : Except String String :=
  match checksum.data with
  | c0 :: c1 :: _ =>
    .ok (ospathJoin (String.singleton c0)
      [String.singleton c1, checksum ++ strLower (splitext filename).2])
  | _ => .error "IndexError: string index out of range"

/-- The durable blob store: an association list from absolute path to the
stored bytes. -/
abbrev Store := List (String × List Nat)

/-- The diagnostic notice emitted when a write is skipped. -/
def duplicateNotice (nm : String) : String :=
  "Content copy \x22" ++ nm ++ "\x22 already exists!"

/-- `FileOnDiskStorage._save` exactly as written: the duplicate branch skips
the write and logs, but the fall-through line evaluates the undefined global
name `ContentCopyStorage` and so raises `NameError` before any write. -/
def FileOnDiskStorage_save_literal (root : String) (store : Store) (nm : String)
    (_content : List Nat) : Except String (Store × List String) :=
  let p := ospathJoin1 root nm
  if (store.filter (fun kv => kv.1 == p)).isEmpty then
    .error "NameError: name ContentCopyStorage is not defined"
  else
    .ok (store, [duplicateNotice nm])

/-- The state of the `file_on_disk` field: the file's current name, its
bytes, and whether it has already been committed to storage (Django's
`FieldFile._committed`; a freshly assigned upload is uncommitted and still
carries its original filename). An absent/empty field is `Option.none`. -/
structure FileBlob where
  name : String
  bytes : List Nat
  committed : Bool
  deriving Repr, DecidableEq

/-- A `File` model record. `checksum` and `file_size` are the persisted
derived fields; `extension` embeds the plain Python attribute assigned only
inside `File.save` (it is not a model field), `none` standing for both an
unset attribute and an assigned `None`. -/
structure FileRecord where
  checksum : Option String
  file_size : Option Nat
  file_on_disk : Option FileBlob
  extension : Option String
  deriving Repr, DecidableEq

/-- The stored name of a record's file field (empty string when no file). -/
def dbFileName (r : FileRecord) : String :=
  match r.file_on_disk with
  | some b => b.name
  | none => ""

/-- `File.save`: with a (truthy) `file_on_disk`, it first assigns `checksum`
from the blob's bytes, `file_size` from its length and `extension` (verbatim,
not lowercased) from its name — plain attribute mutations that happen before
the persistence attempt — then `super().save()` has the field's `pre_save`
commit an uncommitted file through `FileOnDiskStorage._save` under the
`file_on_disk_name` path, which raises `NameError` on a fresh path (the slip
of `FileOnDiskStorage_save_literal`) and skips with a notice on a duplicate;
with no blob, the three fields are cleared to `None` and the store untouched.
The result is the (already mutated) record together with the save outcome:
on success the surviving store and log, on an exception the error, the store
having never been written. -/
def File_save (root : String) (rec : FileRecord) (store : Store) :
    FileRecord × Except String (Store × List String) :=
  match rec.file_on_disk with
  | some blob =>
    let c := md5hex blob.bytes
    let sz := blob.bytes.length
    let ext := (splitext blob.name).2
    let rec2 : FileRecord :=
      { rec with checksum := some c, file_size := some sz, extension := some ext }
    if blob.committed then
      (rec2, .ok (store, []))
    else
      match file_on_disk_name c blob.name with
      | .error e => (rec2, .error e)
      | .ok path =>
        match FileOnDiskStorage_save_literal root store path blob.bytes with
        | .error e => (rec2, .error e)
        | .ok saved =>
          ({ rec2 with file_on_disk := some ⟨path, blob.bytes, true⟩ },
           .ok saved)
  | none =>
    ({ rec with checksum := none, file_size := none, extension := none },
     .ok (store, []))

/-- Modelled from the spec: the Django settings module and
`FileSystemStorage.url` are not under `src/`; the spec's §6 treats the blob
store as a single namespace addressed by the derived path, so `MEDIA_URL` is
taken empty and `url(name)` returns the stored name, while `FieldFile.url`
on a field with no file raises `ValueError`. -/
def fieldFileUrl (f : Option FileBlob) : Except String String :=
  match f with
  | none => .error "ValueError: The file_on_disk attribute has no file associated with it."
  | some b => .ok b.name

/-- The `post_delete` receiver `auto_delete_file_on_delete`: if no surviving
record's `file_on_disk` equals the deleted instance's URL, remove the blob at
`STORAGE_ROOT/checksum[0:1]/checksum[1:2]/checksum + extension` when such a
file exists (`settings.STORAGE_ROOT` and the storage location are modelled as
the same `root`, per the spec's single storage namespace). A `None` or unset
`checksum`/`extension` raises (`TypeError`/`AttributeError`), as does taking
the URL of an empty file field. -/
def auto_delete_file_on_delete (root : String) (db : List FileRecord)
    (store : Store) (inst : FileRecord) : Except String Store :=
  match fieldFileUrl inst.file_on_disk with
  | .error e => .error e
  | .ok url =>
    if (db.filter (fun r => dbFileName r == url)).isEmpty then
      match inst.checksum, inst.extension with
      | some c, some e =>
        let p := ospathJoin root [strHead1 c, strSecond1 c, c ++ e]
        if (store.filter (fun kv => kv.1 == p)).isEmpty then
          .ok store
        else
          .ok (store.filter (fun kv => kv.1 != p))
      | none, _ => .error "TypeError: NoneType object is not subscriptable"
      | some _, none =>
        .error "AttributeError: File object has no attribute extension"
    else
      .ok store

/-- The store left behind by the `post_delete` receiver: its result state on
success, and the unchanged store when it raises (the `os.remove` at the end
is the receiver's only mutation, so an exception leaves the store as it
was). -/
def storeAfterDelete (root : String) (db : List FileRecord) (store : Store)
    (inst : FileRecord) : Store :=
  match auto_delete_file_on_delete root db store inst with
  | .ok s => s
  | .error _ => store

/-! ## The relationship integrity guard

Content nodes are identified by their primary keys (`Nat`); an edge table is
the list of its rows as ordered pairs — `(target_node, prerequisite)` for
`PrerequisiteContentRelationship` and `(contentnode_1, contentnode_2)` for
`RelatedContentRelationship`. `%s` interpolation of a node renders its key. -/

/-- The message of the self-reference `IntegrityError` for prerequisites. -/
def selfRefPrereqMsg : String := "Cannot self reference as prerequisite."

/-- The message of the directional-cycle `IntegrityError`, with both nodes
interpolated. -/
def directionalMsg (targetNode prerequisite : Nat) : String :=
  "Note: Prerequisite relationship is directional! " ++ toString targetNode
    ++ " and " ++ toString prerequisite
    ++ " cannot be prerequisite of each other!"

/-- `PrerequisiteContentRelationship.clean`: reject a self reference, then
reject an immediate 2-cycle when the reverse ordered pair is already a row. -/
def prereq_clean (targetNode prerequisite : Nat) (edges : List (Nat × Nat)) :
    Except String Unit :=
  if targetNode = prerequisite then
    .error selfRefPrereqMsg
  else if !(edges.filter
      (fun e => e.1 == prerequisite && e.2 == targetNode)).isEmpty then
    .error (directionalMsg targetNode prerequisite)
  else
    .ok ()

/-- `PrerequisiteContentRelationship.save`: `full_clean()` runs `clean`, then
the unique-together validation over `(target_node, prerequisite)`; only after
both pass is the row inserted. -/
def PrerequisiteContentRelationship_save (targetNode prerequisite : Nat)
    (edges : List (Nat × Nat)) : Except String (List (Nat × Nat)) :=
  match prereq_clean targetNode prerequisite edges with
  | .error e => .error e
  | .ok _ =>
    if !(edges.filter
        (fun e => e.1 == targetNode && e.2 == prerequisite)).isEmpty then
      .error "ValidationError: Prerequisite content relationship with this Target node and Prerequisite already exists."
    else
      .ok (edges ++ [(targetNode, prerequisite)])

/-- The message of the self-reference `IntegrityError` for related edges. -/
def selfRefRelatedMsg : String := "Cannot self reference as related."

/-- `RelatedContentRelationship.save`: reject a self reference; if the
reverse ordered pair is already a row, silently cancel the save (no write,
no error); otherwise insert, with the unique-together constraint over
`(contentnode_1, contentnode_2)` as the database backstop. -/
def RelatedContentRelationship_save (contentnode1 contentnode2 : Nat)
    (edges : List (Nat × Nat)) : Except String (List (Nat × Nat)) :=
  if contentnode1 = contentnode2 then
    .error selfRefRelatedMsg
  else if !(edges.filter
      (fun e => e.1 == contentnode2 && e.2 == contentnode1)).isEmpty then
    .ok edges
  else if !(edges.filter
      (fun e => e.1 == contentnode1 && e.2 == contentnode2)).isEmpty then
    .error "IntegrityError: UNIQUE constraint failed: contentnode_1, contentnode_2"
  else
    .ok (edges ++ [(contentnode1, contentnode2)])

/-! ## `ContentNode.delete` -/

/-- The slice of database state touched by deleting a content node: the node
rows, the tag rows, the node–tag assignments (`ContentNode.tags`, a
many-to-many), and the two relationship tables. -/
structure CNState where
  nodes : List Nat
  tagTable : List Nat
  taggings : List (Nat × Nat)
  prereqEdges : List (Nat × Nat)
  relatedEdges : List (Nat × Nat)
  deriving Repr, DecidableEq

/-- `ContentNode.delete`: delete every tag row currently attached to the
node (`for t in self.tags.all(): t.delete()` — the reference-counting guard
in `ContentTag` is commented out, so each attached tag row is deleted
outright), then delete the node row itself; the method touches neither
relationship table. -/
def ContentNode_delete (node : Nat) (st : CNState) : CNState :=
  let myTags := (st.taggings.filter (fun p => p.1 == node)).map (fun p => p.2)
  { st with
      tagTable := st.tagTable.filter (fun t => !(myTags.contains t)),
      nodes := st.nodes.filter (fun n => n != node) }

/-! ## Helper lemmas -/

lemma hexChar_mem (n : Nat) : hexChar n ∈ hexDigits := by
  unfold hexChar
  rw [List.getD_eq_getElem?_getD]
  rw [List.getElem?_eq_getElem
    (by
      have h16 : hexDigits.length = 16 := rfl
      omega)]
  simp [List.getElem_mem]

lemma hexChar_ne_slash (n : Nat) : hexChar n ≠ '/' := by
  intro he
  have h := hexChar_mem n
  rw [he] at h
  revert h
  decide

lemma md5Digest_shape (bs : List Nat) : ∃ a r, md5Digest bs = toLE 4 a ++ r := by
  unfold md5Digest
  exact ⟨_, _, rfl⟩

lemma md5hex_data_eq (bs : List Nat) :
    ∃ n₁ n₂ t, (md5hex bs).data = hexChar n₁ :: hexChar n₂ :: t := by
  obtain ⟨a, r, h⟩ := md5Digest_shape bs
  refine ⟨a % 256 / 16, a % 256 % 16, hexOfBytes (toLE 3 (a / 256) ++ r), ?_⟩
  simp only [md5hex, h]
  rfl

lemma ospathJoin1_cons (path b : String) (h1 : b.data.headD ' ' ≠ '/')
    (h2 : path.data ≠ []) (h3 : path.data.getLast? ≠ some '/') :
    ospathJoin1 path b = ⟨path.data ++ '/' :: b.data⟩ := by
  unfold ospathJoin1
  rw [if_neg h1, if_neg (not_or.mpr ⟨h2, h3⟩)]

lemma ospathJoin1_root (root s : String) (h : s.data.headD ' ' ≠ '/') :
    ospathJoin1 root s
      = if root.data = [] ∨ root.data.getLast? = some '/' then ⟨root.data ++ s.data⟩
        else ⟨root.data ++ '/' :: s.data⟩ := by
  unfold ospathJoin1
  rw [if_neg h]

lemma ospathJoin1_ne (root s1 s2 : String)
    (h1 : s1.data.headD ' ' ≠ '/') (h2 : s2.data.headD ' ' ≠ '/')
    (hne : s1 ≠ s2) : ospathJoin1 root s1 ≠ ospathJoin1 root s2 := by
  rw [ospathJoin1_root _ _ h1, ospathJoin1_root _ _ h2]
  by_cases hr : root.data = [] ∨ root.data.getLast? = some '/'
  · rw [if_pos hr, if_pos hr]
    intro he
    exact hne (String.ext (List.append_cancel_left (congrArg String.data he)))
  · rw [if_neg hr, if_neg hr]
    intro he
    have hd := List.append_cancel_left (congrArg String.data he)
    simp only [List.cons.injEq, true_and] at hd
    exact hne (String.ext hd)

lemma ospathJoin_root_three (root : String) (x y : Char) (t : String)
    (hx : x ≠ '/') (hy : y ≠ '/') (ht : t.data.headD ' ' ≠ '/') :
    ospathJoin root [⟨[x]⟩, ⟨[y]⟩, t]
      = ospathJoin1 root ⟨x :: '/' :: y :: '/' :: t.data⟩ := by
  show ospathJoin1 (ospathJoin1 (ospathJoin1 root ⟨[x]⟩) ⟨[y]⟩) t = _
  rw [ospathJoin1_root root ⟨[x]⟩ (by simpa using hx),
      ospathJoin1_root root ⟨x :: '/' :: y :: '/' :: t.data⟩ (by simpa using hx)]
  by_cases hr : root.data = [] ∨ root.data.getLast? = some '/'
  · rw [if_pos hr, if_pos hr]
    have e2 : ospathJoin1 ⟨root.data ++ [x]⟩ ⟨[y]⟩
        = ⟨(root.data ++ [x]) ++ '/' :: [y]⟩ :=
      ospathJoin1_cons _ _ (by simpa using hy)
        (by show root.data ++ [x] ≠ []; simp)
        (by show (root.data ++ [x]).getLast? ≠ some '/'
            rw [List.getLast?_concat]
            simpa using hx)
    rw [e2]
    have e3 : ospathJoin1 ⟨(root.data ++ [x]) ++ '/' :: [y]⟩ t
        = ⟨((root.data ++ [x]) ++ '/' :: [y]) ++ '/' :: t.data⟩ :=
      ospathJoin1_cons _ _ ht
        (by show (root.data ++ [x]) ++ '/' :: [y] ≠ []; simp)
        (by show ((root.data ++ [x]) ++ '/' :: [y]).getLast? ≠ some '/'
            rw [List.getLast?_append_of_ne_nil _ (by simp)]
            simpa using hy)
    rw [e3]
    apply String.ext
    simp
  · rw [if_neg hr, if_neg hr]
    have e2 : ospathJoin1 ⟨root.data ++ '/' :: [x]⟩ ⟨[y]⟩
        = ⟨(root.data ++ '/' :: [x]) ++ '/' :: [y]⟩ :=
      ospathJoin1_cons _ _ (by simpa using hy)
        (by show root.data ++ '/' :: [x] ≠ []; simp)
        (by show (root.data ++ '/' :: [x]).getLast? ≠ some '/'
            rw [List.getLast?_append_of_ne_nil _ (by simp)]
            simpa using hx)
    rw [e2]
    have e3 : ospathJoin1 ⟨(root.data ++ '/' :: [x]) ++ '/' :: [y]⟩ t
        = ⟨((root.data ++ '/' :: [x]) ++ '/' :: [y]) ++ '/' :: t.data⟩ :=
      ospathJoin1_cons _ _ ht
        (by show (root.data ++ '/' :: [x]) ++ '/' :: [y] ≠ []; simp)
        (by show ((root.data ++ '/' :: [x]) ++ '/' :: [y]).getLast? ≠ some '/'
            rw [List.getLast?_append_of_ne_nil _ (by simp)]
            simpa using hy)
    rw [e3]
    apply String.ext
    simp

lemma file_on_disk_name_md5 (bs : List Nat) (filename : String) :
    file_on_disk_name (md5hex bs) filename
      = .ok (strHead1 (md5hex bs) ++ "/" ++ strSecond1 (md5hex bs) ++ "/"
          ++ (md5hex bs ++ strLower (splitext filename).2)) := by
  obtain ⟨n₁, n₂, t, h⟩ := md5hex_data_eq bs
  have hx := hexChar_ne_slash n₁
  have hy := hexChar_ne_slash n₂
  have hhead : (md5hex bs ++ strLower (splitext filename).2).data.headD ' ' ≠ '/' := by
    rw [String.data_append, h]
    simpa using hx
  simp only [file_on_disk_name, h]
  show Except.ok (ospathJoin1 (ospathJoin1 ⟨[hexChar n₁]⟩ ⟨[hexChar n₂]⟩)
        (md5hex bs ++ strLower (splitext filename).2)) = _
  have e1 : ospathJoin1 (⟨[hexChar n₁]⟩ : String) ⟨[hexChar n₂]⟩
      = ⟨[hexChar n₁] ++ '/' :: [hexChar n₂]⟩ :=
    ospathJoin1_cons _ _ (by simpa using hy)
      (by show [hexChar n₁] ≠ []; simp)
      (by show ([hexChar n₁]).getLast? ≠ some '/'; simpa using hx)
  rw [e1]
  have e2 : ospathJoin1 ⟨[hexChar n₁] ++ '/' :: [hexChar n₂]⟩
        (md5hex bs ++ strLower (splitext filename).2)
      = ⟨([hexChar n₁] ++ '/' :: [hexChar n₂]) ++ '/'
          :: (md5hex bs ++ strLower (splitext filename).2).data⟩ :=
    ospathJoin1_cons _ _ hhead
      (by show [hexChar n₁] ++ '/' :: [hexChar n₂] ≠ []; simp)
      (by show ([hexChar n₁] ++ '/' :: [hexChar n₂]).getLast? ≠ some '/'
          rw [List.getLast?_append_of_ne_nil _ (by simp)]
          simpa using hy)
  rw [e2]
  apply congrArg
  apply String.ext
  show ([hexChar n₁] ++ '/' :: [hexChar n₂]) ++ '/'
      :: (md5hex bs ++ strLower (splitext filename).2).data = _
  simp [String.data_append, strHead1, strSecond1, h]

lemma isInfix_append_left {α : Type} (l s t : List α) (h : l <:+: s) :
    l <:+: s ++ t := by
  obtain ⟨u, v, huv⟩ := h
  exact ⟨u, v ++ t, by rw [← huv]; simp⟩

lemma isInfix_append_right {α : Type} (l s t : List α) (h : l <:+: t) :
    l <:+: s ++ t := by
  obtain ⟨u, v, huv⟩ := h
  exact ⟨s ++ u, v, by rw [← huv]; simp⟩

/-- The number of related-edge rows joining `A` and `B` in either order. -/
def relatedRowsBetween (A B : Nat) (edges : List (Nat × Nat)) : Nat :=
  edges.countP (fun e => (e.1 == A && e.2 == B) || (e.1 == B && e.2 == A))

/-! ## The claims -/

/-- C1: the spec says the first save of content at a fresh derived path
stores the bytes and succeeds, with later identical saves skipped.  The
code's `FileOnDiskStorage._save` instead evaluates the undefined global name
`ContentCopyStorage` on its fall-through line, so the first save of any new
blob raises `NameError` and stores nothing; only the duplicate-skip branch
(exists → log a notice, write nothing) behaves as specified. -/
theorem claim_C1_code_bug :
    FileOnDiskStorage_save_literal "" [] "5/d/5d41402abc4b2a76b9719d911017c592.txt"
        (strBytes "hello")
      = .error "NameError: name ContentCopyStorage is not defined" ∧
    FileOnDiskStorage_save_literal ""
        [("5/d/5d41402abc4b2a76b9719d911017c592.txt", strBytes "hello")]
        "5/d/5d41402abc4b2a76b9719d911017c592.txt" (strBytes "hello")
      = .ok ([("5/d/5d41402abc4b2a76b9719d911017c592.txt", strBytes "hello")],
             [duplicateNotice "5/d/5d41402abc4b2a76b9719d911017c592.txt"]) := by
  decide

/-- C5: when the reverse prerequisite edge `(B, A)` is already a row,
inserting `(A, B)` for distinct `A`, `B` fails with the directional-cycle
`IntegrityError` — whose message contains both "directional" and "cannot be
prerequisite of each other" — and, the save being an error, no row is
written. -/
theorem claim_C5 (A B : Nat) (edges : List (Nat × Nat)) (hne : A ≠ B)
    (hrev : (B, A) ∈ edges) :
    PrerequisiteContentRelationship_save A B edges
      = .error (directionalMsg A B) ∧
    "directional".data <:+: (directionalMsg A B).data ∧
    "cannot be prerequisite of each other".data <:+: (directionalMsg A B).data := by
  have hdm : (directionalMsg A B).data
      = "Note: Prerequisite relationship is directional! ".data
        ++ ((toString A).data ++ (" and ".data ++ ((toString B).data
          ++ " cannot be prerequisite of each other!".data))) := by
    simp only [directionalMsg, String.data_append, List.append_assoc]
  refine ⟨?_, ?_, ?_⟩
  · have hmem : (B, A) ∈ edges.filter (fun e => e.1 == B && e.2 == A) :=
      List.mem_filter.mpr ⟨hrev, by simp⟩
    have hem : (edges.filter (fun e => e.1 == B && e.2 == A)).isEmpty = false := by
      simp [List.isEmpty_eq_false, List.ne_nil_of_mem hmem]
    unfold PrerequisiteContentRelationship_save prereq_clean
    rw [if_neg hne, hem]
    simp
  · rw [hdm]
    exact isInfix_append_left _ _ _ (by decide)
  · rw [hdm]
    apply isInfix_append_right
    apply isInfix_append_right
    apply isInfix_append_right
    apply isInfix_append_right
    decide

/-- C5 witness at `A = 1`, `B = 2`, edge table `[(2, 1)]`. -/
theorem claim_C5_witness :
    PrerequisiteContentRelationship_save 1 2 [(2, 1)]
      = .error (directionalMsg 1 2) ∧
    "directional".data <:+: (directionalMsg 1 2).data ∧
    "cannot be prerequisite of each other".data <:+: (directionalMsg 1 2).data :=
  claim_C5 1 2 [(2, 1)] (by decide) (by decide)

/-- C6: when the related edge `(A, B)` already exists and the table holds
exactly one row between distinct `A` and `B`, saving the reverse `(B, A)` is
suppressed: the save returns with the table unchanged (no new edge, no
error), so exactly one row between `A` and `B` — the original — remains. -/
theorem claim_C6 (A B : Nat) (edges : List (Nat × Nat)) (hne : A ≠ B)
    (hmem : (A, B) ∈ edges) (hone : relatedRowsBetween A B edges = 1) :
    RelatedContentRelationship_save B A edges = .ok edges ∧
    relatedRowsBetween A B edges = 1 := by
  refine ⟨?_, hone⟩
  have hmf : (A, B) ∈ edges.filter (fun e => e.1 == A && e.2 == B) :=
    List.mem_filter.mpr ⟨hmem, by simp⟩
  have hem : (edges.filter (fun e => e.1 == A && e.2 == B)).isEmpty = false := by
    simp [List.isEmpty_eq_false, List.ne_nil_of_mem hmf]
  unfold RelatedContentRelationship_save
  rw [if_neg (fun h => hne h.symm), hem]
  simp

/-- C6 witness at `A = 1`, `B = 2`, edge table `[(1, 2)]`. -/
theorem claim_C6_witness :
    RelatedContentRelationship_save 2 1 [(1, 2)] = .ok [(1, 2)] ∧
    relatedRowsBetween 1 2 [(1, 2)] = 1 :=
  claim_C6 1 2 [(1, 2)] (by decide) (by decide) (by decide)

/-- C7: a self-loop is rejected by both relationship kinds with their
self-reference `IntegrityError`, for every node and every pre-existing edge
state, and — the saves being errors — nothing is persisted. -/
theorem claim_C7 (A : Nat) (prereqEdges relatedEdges : List (Nat × Nat)) :
    PrerequisiteContentRelationship_save A A prereqEdges
      = .error selfRefPrereqMsg ∧
    RelatedContentRelationship_save A A relatedEdges
      = .error selfRefRelatedMsg := by
  constructor
  · unfold PrerequisiteContentRelationship_save prereq_clean
    rw [if_pos rfl]
  · unfold RelatedContentRelationship_save
    rw [if_pos rfl]

/-- C3 counterexample: a record saved from `attach(blob = "hello",
name = "x.TXT")` sits alone in the database — no other surviving record
references its storage path — yet deleting it leaves the blob in the store:
the handler rebuilds the path with the verbatim extension `.TXT` while the
blob was stored under the lowercased `.txt`, so the claim's "the physical
blob at that path is removed" fails at this input. -/
theorem claim_C3_counterexample :
    auto_delete_file_on_delete "storage" []
      [("storage/5/d/5d41402abc4b2a76b9719d911017c592.txt", strBytes "hello")]
      ⟨some "5d41402abc4b2a76b9719d911017c592", some 5,
       some ⟨"5/d/5d41402abc4b2a76b9719d911017c592.txt", strBytes "hello", true⟩,
       some ".TXT"⟩
      = .ok [("storage/5/d/5d41402abc4b2a76b9719d911017c592.txt", strBytes "hello")] := by
  decide

/-- C3 (amended): for a record whose fields come from an in-process save of
an attached blob and whose extension is already lowercase, deletion removes
the blob at the record's derived storage path exactly when no other
surviving record references that path, and leaves the store untouched when
another record shares it. -/
theorem claim_C3 (root : String) (db : List FileRecord) (store : Store)
    (inst : FileRecord) (blob : FileBlob) (bs : List Nat) (e : String)
    (hfile : inst.file_on_disk = some blob)
    (hck : inst.checksum = some (md5hex bs))
    (hext : inst.extension = some e)
    (hname : blob.name = strHead1 (md5hex bs) ++ "/" ++ strSecond1 (md5hex bs)
        ++ "/" ++ (md5hex bs ++ e)) :
    ((db.filter (fun r => dbFileName r == blob.name)).isEmpty = true →
      auto_delete_file_on_delete root db store inst
        = .ok (store.filter (fun kv => kv.1 != ospathJoin1 root blob.name))) ∧
    ((db.filter (fun r => dbFileName r == blob.name)).isEmpty = false →
      auto_delete_file_on_delete root db store inst = .ok store) := by
  obtain ⟨n₁, n₂, t, hdata⟩ := md5hex_data_eq bs
  have hx := hexChar_ne_slash n₁
  have hy := hexChar_ne_slash n₂
  have hH : strHead1 (md5hex bs) = (⟨[hexChar n₁]⟩ : String) :=
    String.ext (by simp [strHead1, hdata])
  have hS : strSecond1 (md5hex bs) = (⟨[hexChar n₂]⟩ : String) :=
    String.ext (by simp [strSecond1, hdata])
  have hname_data : blob.name
      = ⟨hexChar n₁ :: '/' :: hexChar n₂ :: '/' :: (md5hex bs ++ e).data⟩ := by
    rw [hname]
    apply String.ext
    simp [String.data_append, strHead1, strSecond1, hdata]
  have hpath : ospathJoin root
        [strHead1 (md5hex bs), strSecond1 (md5hex bs), md5hex bs ++ e]
      = ospathJoin1 root blob.name := by
    rw [hH, hS,
      ospathJoin_root_three root (hexChar n₁) (hexChar n₂) (md5hex bs ++ e) hx hy
        (by rw [String.data_append, hdata]; simpa using hx),
      hname_data]
  unfold auto_delete_file_on_delete
  simp only [hfile, fieldFileUrl]
  constructor
  · intro hdb
    rw [if_pos hdb]
    simp only [hck, hext]
    rw [hpath]
    by_cases hst : (store.filter
        (fun kv => kv.1 == ospathJoin1 root blob.name)).isEmpty = true
    · rw [if_pos hst]
      have hnone : ∀ kv ∈ store, (kv.1 != ospathJoin1 root blob.name) = true := by
        intro kv hkv
        have := List.filter_eq_nil_iff.mp (List.isEmpty_iff.mp hst) kv hkv
        simpa using this
      rw [List.filter_eq_self.mpr hnone]
    · rw [if_neg hst]
  · intro hdb
    rw [if_neg (by rw [hdb]; exact Bool.false_ne_true)]

/-- C3 witness: deleting the sole record of blob "hello" (extension `.txt`)
empties the store; deleting it while a second record shares the path leaves
the store unchanged. -/
theorem claim_C3_witness :
    auto_delete_file_on_delete "storage" []
      [("storage/5/d/5d41402abc4b2a76b9719d911017c592.txt", strBytes "hello")]
      ⟨some "5d41402abc4b2a76b9719d911017c592", some 5,
       some ⟨"5/d/5d41402abc4b2a76b9719d911017c592.txt", strBytes "hello", true⟩,
       some ".txt"⟩
      = .ok [] ∧
    auto_delete_file_on_delete "storage"
      [⟨some "5d41402abc4b2a76b9719d911017c592", some 5,
        some ⟨"5/d/5d41402abc4b2a76b9719d911017c592.txt", strBytes "hello", true⟩,
        none⟩]
      [("storage/5/d/5d41402abc4b2a76b9719d911017c592.txt", strBytes "hello")]
      ⟨some "5d41402abc4b2a76b9719d911017c592", some 5,
       some ⟨"5/d/5d41402abc4b2a76b9719d911017c592.txt", strBytes "hello", true⟩,
       some ".txt"⟩
      = .ok [("storage/5/d/5d41402abc4b2a76b9719d911017c592.txt", strBytes "hello")] := by
  constructor
  · have h := (claim_C3 "storage" []
      [("storage/5/d/5d41402abc4b2a76b9719d911017c592.txt", strBytes "hello")]
      ⟨some "5d41402abc4b2a76b9719d911017c592", some 5,
       some ⟨"5/d/5d41402abc4b2a76b9719d911017c592.txt", strBytes "hello", true⟩,
       some ".txt"⟩
      ⟨"5/d/5d41402abc4b2a76b9719d911017c592.txt", strBytes "hello", true⟩
      (strBytes "hello") ".txt" rfl (by decide) rfl (by decide)).1
      (by decide)
    rw [h]
    decide
  · have h := (claim_C3 "storage"
      [⟨some "5d41402abc4b2a76b9719d911017c592", some 5,
        some ⟨"5/d/5d41402abc4b2a76b9719d911017c592.txt", strBytes "hello", true⟩,
        none⟩]
      [("storage/5/d/5d41402abc4b2a76b9719d911017c592.txt", strBytes "hello")]
      ⟨some "5d41402abc4b2a76b9719d911017c592", some 5,
       some ⟨"5/d/5d41402abc4b2a76b9719d911017c592.txt", strBytes "hello", true⟩,
       some ".txt"⟩
      ⟨"5/d/5d41402abc4b2a76b9719d911017c592.txt", strBytes "hello", true⟩
      (strBytes "hello") ".txt" rfl (by decide) rfl (by decide)).2
      (by decide)
    exact h

/-- C4 counterexample: the claim says the post-delete reclamation step never
raises, in particular for records whose derived fields were cleared to null;
but on a cleared record (no attached file, `checksum`/`extension` `None`)
the handler raises instead of silently returning. -/
theorem claim_C4_counterexample :
    auto_delete_file_on_delete "storage" [] [] ⟨none, none, none, none⟩
      = .error "ValueError: The file_on_disk attribute has no file associated with it." := by
  decide

/-- C4 (amended): for a record with an attached file and non-null `checksum`
and `extension` (the state an in-process save with a blob leaves behind),
the post-delete reclamation step never raises; and when the blob is already
absent from storage it is a silent no-op, leaving the store unchanged. -/
theorem claim_C4 (root : String) (db : List FileRecord) (store : Store)
    (inst : FileRecord) (blob : FileBlob) (c e : String)
    (hfile : inst.file_on_disk = some blob)
    (hck : inst.checksum = some c)
    (hext : inst.extension = some e) :
    (∃ s, auto_delete_file_on_delete root db store inst = .ok s) ∧
    ((store.filter (fun kv =>
        kv.1 == ospathJoin root [strHead1 c, strSecond1 c, c ++ e])).isEmpty = true →
      auto_delete_file_on_delete root db store inst = .ok store) := by
  unfold auto_delete_file_on_delete
  simp only [hfile, fieldFileUrl, hck, hext]
  by_cases hdb : (db.filter (fun r => dbFileName r == blob.name)).isEmpty = true
  · rw [if_pos hdb]
    constructor
    · by_cases hst : (store.filter (fun kv =>
          kv.1 == ospathJoin root [strHead1 c, strSecond1 c, c ++ e])).isEmpty = true
      · rw [if_pos hst]
        exact ⟨store, rfl⟩
      · rw [if_neg hst]
        exact ⟨_, rfl⟩
    · intro hst
      rw [if_pos hst]
  · rw [if_neg hdb]
    exact ⟨⟨store, rfl⟩, fun _ => rfl⟩

/-- C4 witness: a saved-with-blob record whose blob is absent from the
(empty) store; deletion returns successfully with the store unchanged. -/
theorem claim_C4_witness :
    (∃ s, auto_delete_file_on_delete "storage" [] []
      ⟨some "ab", some 1, some ⟨"a/b/ab.txt", [1], true⟩, some ".txt"⟩ = .ok s) ∧
    auto_delete_file_on_delete "storage" [] []
      ⟨some "ab", some 1, some ⟨"a/b/ab.txt", [1], true⟩, some ".txt"⟩ = .ok [] :=
  ⟨(claim_C4 "storage" [] [] _ ⟨"a/b/ab.txt", [1], true⟩ "ab" ".txt" rfl rfl rfl).1,
   (claim_C4 "storage" [] [] _ ⟨"a/b/ab.txt", [1], true⟩ "ab" ".txt" rfl rfl rfl).2
     (by decide)⟩

/-- C9: the delete-time path is built from the verbatim (not lowercased)
in-process `extension` attribute, so for a record whose extension differs
from its lowercase form the delete-time path differs from the attach-time
storage path (which lowercases the extension), and the blob stored at the
attach-time path survives deletion in every database and store state. -/
theorem claim_C9 (root : String) (db : List FileRecord) (store : Store)
    (inst : FileRecord) (blob : FileBlob) (bs : List Nat) (e : String)
    (hfile : inst.file_on_disk = some blob)
    (hck : inst.checksum = some (md5hex bs))
    (hext : inst.extension = some e)
    (hlow : strLower e ≠ e)
    (hname : blob.name = strHead1 (md5hex bs) ++ "/" ++ strSecond1 (md5hex bs)
        ++ "/" ++ (md5hex bs ++ strLower e)) :
    ospathJoin root [strHead1 (md5hex bs), strSecond1 (md5hex bs), md5hex bs ++ e]
      ≠ ospathJoin1 root blob.name ∧
    ∀ content, (ospathJoin1 root blob.name, content) ∈ store →
      (ospathJoin1 root blob.name, content) ∈ storeAfterDelete root db store inst := by
  obtain ⟨n₁, n₂, t, hdata⟩ := md5hex_data_eq bs
  have hx := hexChar_ne_slash n₁
  have hy := hexChar_ne_slash n₂
  have hH : strHead1 (md5hex bs) = (⟨[hexChar n₁]⟩ : String) :=
    String.ext (by simp [strHead1, hdata])
  have hS : strSecond1 (md5hex bs) = (⟨[hexChar n₂]⟩ : String) :=
    String.ext (by simp [strSecond1, hdata])
  have hname_data : blob.name
      = ⟨hexChar n₁ :: '/' :: hexChar n₂ :: '/' :: (md5hex bs ++ strLower e).data⟩ := by
    rw [hname]
    apply String.ext
    simp [String.data_append, strHead1, strSecond1, hdata]
  have hne : ospathJoin root
        [strHead1 (md5hex bs), strSecond1 (md5hex bs), md5hex bs ++ e]
      ≠ ospathJoin1 root blob.name := by
    rw [hH, hS,
      ospathJoin_root_three root (hexChar n₁) (hexChar n₂) (md5hex bs ++ e) hx hy
        (by rw [String.data_append, hdata]; simpa using hx),
      hname_data]
    apply ospathJoin1_ne
    · simpa using hx
    · simpa using hx
    · intro hmk
      have hd := congrArg String.data hmk
      simp only [List.cons.injEq, true_and] at hd
      rw [String.data_append, String.data_append] at hd
      have he := List.append_cancel_left hd
      exact hlow (String.ext he).symm
  refine ⟨hne, ?_⟩
  intro content hmem
  unfold storeAfterDelete auto_delete_file_on_delete
  simp only [hfile, fieldFileUrl, hck, hext]
  by_cases hdb : (db.filter (fun r => dbFileName r == blob.name)).isEmpty = true
  · rw [if_pos hdb]
    by_cases hst : (store.filter (fun kv => kv.1 == ospathJoin root
        [strHead1 (md5hex bs), strSecond1 (md5hex bs), md5hex bs ++ e])).isEmpty = true
    · rw [if_pos hst]
      exact hmem
    · rw [if_neg hst]
      exact List.mem_filter.mpr ⟨hmem, by simp [bne_iff_ne]; exact fun h => hne h.symm⟩
  · rw [if_neg hdb]
    exact hmem

/-- C9 witness: a record saved from `attach(blob = "hello", name = "x.TXT")`
(stored under `.txt`, extension attribute `.TXT`): the two paths differ and
the blob survives its deletion. -/
theorem claim_C9_witness :
    ospathJoin "storage"
      [strHead1 (md5hex (strBytes "hello")), strSecond1 (md5hex (strBytes "hello")),
       md5hex (strBytes "hello") ++ ".TXT"]
      ≠ ospathJoin1 "storage" "5/d/5d41402abc4b2a76b9719d911017c592.txt" ∧
    (ospathJoin1 "storage" "5/d/5d41402abc4b2a76b9719d911017c592.txt", strBytes "hello")
      ∈ storeAfterDelete "storage" []
        [("storage/5/d/5d41402abc4b2a76b9719d911017c592.txt", strBytes "hello")]
        ⟨some "5d41402abc4b2a76b9719d911017c592", some 5,
         some ⟨"5/d/5d41402abc4b2a76b9719d911017c592.txt", strBytes "hello", true⟩,
         some ".TXT"⟩ :=
  ⟨(claim_C9 "storage" []
      [("storage/5/d/5d41402abc4b2a76b9719d911017c592.txt", strBytes "hello")]
      ⟨some "5d41402abc4b2a76b9719d911017c592", some 5,
       some ⟨"5/d/5d41402abc4b2a76b9719d911017c592.txt", strBytes "hello", true⟩,
       some ".TXT"⟩
      ⟨"5/d/5d41402abc4b2a76b9719d911017c592.txt", strBytes "hello", true⟩
      (strBytes "hello") ".TXT" rfl (by decide) rfl (by decide)
      (by decide)).1,
   (claim_C9 "storage" []
      [("storage/5/d/5d41402abc4b2a76b9719d911017c592.txt", strBytes "hello")]
      ⟨some "5d41402abc4b2a76b9719d911017c592", some 5,
       some ⟨"5/d/5d41402abc4b2a76b9719d911017c592.txt", strBytes "hello", true⟩,
       some ".TXT"⟩
      ⟨"5/d/5d41402abc4b2a76b9719d911017c592.txt", strBytes "hello", true⟩
      (strBytes "hello") ".TXT" rfl (by decide) rfl (by decide)
      (by decide)).2 (strBytes "hello") (by decide)⟩

/-- C10: deleting a content node deletes every tag currently attached to it
from the tag table — for every state, hence also when another node still
references the tag — while the method itself leaves both relationship edge
tables unchanged. -/
theorem claim_C10 (node : Nat) (st : CNState) :
    (∀ t, (node, t) ∈ st.taggings → t ∉ (ContentNode_delete node st).tagTable) ∧
    (ContentNode_delete node st).prereqEdges = st.prereqEdges ∧
    (ContentNode_delete node st).relatedEdges = st.relatedEdges := by
  refine ⟨?_, rfl, rfl⟩
  intro t ht hmem
  simp only [ContentNode_delete] at hmem
  have h2 := (List.mem_filter.mp hmem).2
  have hmy : t ∈ (st.taggings.filter (fun p => p.1 == node)).map (fun p => p.2) :=
    List.mem_map.mpr ⟨(node, t), List.mem_filter.mpr ⟨ht, by simp⟩, rfl⟩
  simp [hmy] at h2

/-- C2: the path derivation is exactly as claimed — for every blob the
derived storage path is first digest character, slash, second digest
character, slash, full digest concatenated with the lowercased filename
extension — and the spec's scenario `attach(blob = "hello", name = "x.txt")`
derives checksum `5d41402abc4b2a76b9719d911017c592` and file size 5 on the
record; but the save itself raises `NameError` (the undefined
`ContentCopyStorage` of the storage layer, C1's slip) when the derived path
`5/d/5d41402abc4b2a76b9719d911017c592.txt` is fresh, storing nothing, and
only completes with the claimed values when the blob already sits at that
path. -/
theorem claim_C2_code_bug :
    (∀ (bs : List Nat) (filename : String),
      file_on_disk_name (md5hex bs) filename
        = .ok (strHead1 (md5hex bs) ++ "/" ++ strSecond1 (md5hex bs) ++ "/"
            ++ (md5hex bs ++ strLower (splitext filename).2))) ∧
    File_save "" ⟨some "", none, some ⟨"x.txt", strBytes "hello", false⟩, none⟩ []
      = (⟨some "5d41402abc4b2a76b9719d911017c592", some 5,
          some ⟨"x.txt", strBytes "hello", false⟩, some ".txt"⟩,
         .error "NameError: name ContentCopyStorage is not defined") ∧
    File_save "" ⟨some "", none, some ⟨"x.txt", strBytes "hello", false⟩, none⟩
        [("5/d/5d41402abc4b2a76b9719d911017c592.txt", strBytes "hello")]
      = (⟨some "5d41402abc4b2a76b9719d911017c592", some 5,
          some ⟨"5/d/5d41402abc4b2a76b9719d911017c592.txt", strBytes "hello", true⟩,
          some ".txt"⟩,
         .ok ([("5/d/5d41402abc4b2a76b9719d911017c592.txt", strBytes "hello")],
              [duplicateNotice "5/d/5d41402abc4b2a76b9719d911017c592.txt"])) := by
  refine ⟨file_on_disk_name_md5, ?_, ?_⟩ <;> decide

/-- C8: on every save of a record with an attached blob, `checksum`,
`file_size` and `extension` are recomputed from the blob (digest of its
bytes, its byte length, the extension split from its name) whatever values
the record's fields held before — these assignments precede the persistence
attempt, so they hold whether the storage layer succeeds or raises; with no
blob attached, the save succeeds, all three fields are cleared to `none` and
the store is left untouched (clearing reclaims nothing). -/
theorem claim_C8 (root : String) (rec : FileRecord) (store : Store) :
    (∀ blob, rec.file_on_disk = some blob →
      (File_save root rec store).1.checksum = some (md5hex blob.bytes) ∧
      (File_save root rec store).1.file_size = some blob.bytes.length ∧
      (File_save root rec store).1.extension = some (splitext blob.name).2) ∧
    (rec.file_on_disk = none →
      File_save root rec store
        = ({ rec with
              checksum := none, file_size := none, extension := none },
           .ok (store, []))) := by
  constructor
  · intro blob hfile
    rcases hc : blob.committed with _ | _
    · simp only [File_save, hfile, hc, Bool.false_eq_true, if_false]
      cases hfn : file_on_disk_name (md5hex blob.bytes) blob.name with
      | error e => simp
      | ok path =>
        dsimp only
        cases hsv : FileOnDiskStorage_save_literal root store path blob.bytes <;>
          simp
    · simp [File_save, hfile, hc]
  · intro hfile
    simp only [File_save, hfile]

/-- C8 witness: an attached-blob save at a record carrying stale caller
values (the fields are recomputed even though the storage write raises),
and a cleared save at a record with no blob. -/
theorem claim_C8_witness :
    ((File_save ""
        ⟨some "bogus", some 999, some ⟨"v.Mp4", [7, 7], false⟩, some ".old"⟩
        []).1.checksum = some (md5hex [7, 7]) ∧
     (File_save ""
        ⟨some "bogus", some 999, some ⟨"v.Mp4", [7, 7], false⟩, some ".old"⟩
        []).1.file_size = some ([7, 7] : List Nat).length ∧
     (File_save ""
        ⟨some "bogus", some 999, some ⟨"v.Mp4", [7, 7], false⟩, some ".old"⟩
        []).1.extension = some (splitext "v.Mp4").2) ∧
    File_save "" ⟨some "bogus", some 999, none, some ".old"⟩ []
      = (⟨none, none, none, none⟩, .ok ([], [])) :=
  ⟨((claim_C8 "" ⟨some "bogus", some 999, some ⟨"v.Mp4", [7, 7], false⟩, some ".old"⟩ []).1
      ⟨"v.Mp4", [7, 7], false⟩ rfl),
   ((claim_C8 "" ⟨some "bogus", some 999, none, some ".old"⟩ []).2 rfl)⟩

/-- C10 witness: deleting node 1 removes tag 10 even though node 2 still
references it, and the edge tables are untouched. -/
theorem claim_C10_witness :
    (10 ∉ (ContentNode_delete 1
        ⟨[1, 2], [10, 11], [(1, 10), (2, 10)], [(1, 2)], [(2, 1)]⟩).tagTable) ∧
    (ContentNode_delete 1
        ⟨[1, 2], [10, 11], [(1, 10), (2, 10)], [(1, 2)], [(2, 1)]⟩).prereqEdges
      = [(1, 2)] ∧
    (ContentNode_delete 1
        ⟨[1, 2], [10, 11], [(1, 10), (2, 10)], [(1, 2)], [(2, 1)]⟩).relatedEdges
      = [(2, 1)] :=
  ⟨(claim_C10 1 ⟨[1, 2], [10, 11], [(1, 10), (2, 10)], [(1, 2)], [(2, 1)]⟩).1
      10 (by decide),
   (claim_C10 1 ⟨[1, 2], [10, 11], [(1, 10), (2, 10)], [(1, 2)], [(2, 1)]⟩).2⟩

end Studio
